import Mathlib

/-!
Shallow embedding of the fantasy-football-connector ETL core.

The embedded functions mirror, definition by definition:
  * `src/etl/fetch/element_summary.py`   (`ElementSummaryFetcher`)
  * `src/fetch_data/element_summary.py`  (legacy `ElementSummaryFetcher` copy)
  * `src/etl/process/bootstrap_static.py` and `src/process/bootstrap_static.py`
    (`get_elements_from_team`, current and legacy copies)
  * `src/process/element_summary.py`     (`fetch_and_upload_team_summary`)
  * `src/models.py` and the two HTTP handlers in `src/app.py` /
    `src/app/routes.py`.

JSON objects are modelled as association lists of string keys; Python
strings as Lean `String` (a wrapper around `List Char`); Python `str(int)`
for nonnegative integers as an explicit base-10 rendering `natChars`.
-/

namespace FFC

/-- JSON scalar/object values, as far as the pipeline inspects them. -/
inductive JVal where
  | nat (n : Nat)
  | str (s : String)
  | obj (fields : List (String × JVal))

/-- A JSON record (Python `dict`): an association list in insertion order. -/
abbrev Rec := List (String × JVal)

/-- First-match lookup of a key in a record, i.e. `dict.get(k)`. -/
def lookupKey (r : Rec) (k : String) : Option JVal :=
  match r with
  | [] => none
  | (k', v) :: rest => if k' = k then some v else lookupKey rest k

/-- The body of a 200 response from the element-summary endpoint, after the
three `raw_data.get(key, [])` accesses (an absent key and an empty array are
indistinguishable at that point, both giving `[]`). -/
structure ESBody where
  fixtures : List Rec
  history : List Rec
  history_past : List Rec

/-- Outcome of the per-player network interaction: either the transport
delivered a response (some status code and parsed JSON body), or an
exception was raised (connection failure, JSON parse failure, ...) carrying
its message. -/
inductive NetOutcome where
  | response (status : Nat) (body : ESBody)
  | exn (msg : String)

/-- The dictionary returned by `fetch_player`: the `player_id` key, the three
sub-collection keys, and the optional `error` key (`error = none` models the
key being absent). -/
structure PlayerResult where
  player_id : Nat
  fixtures : List Rec
  history : List Rec
  history_past : List Rec
  error : Option String

/-- `ElementSummaryFetcher.fetch_player` from `src/etl/fetch/element_summary.py`
(lines 30-90).  On status 200 each record of the three sub-collections is
wrapped as `{'element': player_id, 'data': f}`; on any other status the
result carries `error = "HTTP <status>"` and three empty lists; on a raised
exception the result carries the exception message and three empty lists.
The Python `try`/`except` wraps the whole body, so the function always
returns a dictionary; totality of this Lean function is the direct image of
that. -/
def fetch_player (player_id : Nat) (o : NetOutcome) : PlayerResult :=
  match o with
  | NetOutcome.response status body =>
      if status = 200 then
        { player_id := player_id
          fixtures := body.fixtures.map
            (fun f => [("element", JVal.nat player_id), ("data", JVal.obj f)])
          history := body.history.map
            (fun f => [("element", JVal.nat player_id), ("data", JVal.obj f)])
          history_past := body.history_past.map
            (fun hp => [("element", JVal.nat player_id), ("data", JVal.obj hp)])
          error := none }
      else
        { player_id := player_id
          fixtures := []
          history := []
          history_past := []
          error := some ("HTTP " ++ toString status) }
  | NetOutcome.exn msg =>
      { player_id := player_id
        fixtures := []
        history := []
        history_past := []
        error := some msg }

/-- `ElementSummaryFetcher.fetch_all_players` (lines 92-106): one
`fetch_player` task per id, joined by `asyncio.gather(*tasks)`, whose value
is the list of task results in argument order.  The network is abstracted as
a map `outcomes` from player id to that player's `NetOutcome`. -/
def fetch_all_players (outcomes : Nat → NetOutcome) (player_ids : List Nat) :
    List PlayerResult :=
  player_ids.map (fun pid => fetch_player pid (outcomes pid))

/-- The aggregated batch built by `flatten_results`: the four lists bound to
the keys `fixtures`, `history`, `history_past`, `errors` of the returned
dictionary.  An errors entry is the pair (player_id, error text). -/
structure Batch where
  fixtures : List Rec
  history : List Rec
  history_past : List Rec
  errors : List (Nat × String)

/-- One step of the loop body of `flatten_results` (lines 131-144): a result
with an `error` key appends one `{player_id, error}` entry to `errors`; a
result without one extends the three data lists with its sub-collections. -/
def flatten_step (b : Batch) (r : PlayerResult) : Batch :=
  match r.error with
  | some e => { b with errors := b.errors ++ [(r.player_id, e)] }
  | none =>
      { b with
        fixtures := b.fixtures ++ r.fixtures
        history := b.history ++ r.history
        history_past := b.history_past ++ r.history_past }

/-- `ElementSummaryFetcher.flatten_results` from
`src/etl/fetch/element_summary.py` (lines 108-151): start from four empty
lists and run the loop over the results in order. -/
def flatten_results (results : List PlayerResult) : Batch :=
  results.foldl flatten_step { fixtures := [], history := [], history_past := [], errors := [] }

/-! Spec-side per-result contributions, used to state what the merge loop
produces. -/

/-- The records a single result contributes to the fixtures sequence:
nothing when it carries an error, all of its fixtures otherwise. -/
def contribFixtures (r : PlayerResult) : List Rec :=
  match r.error with
  | some _ => []
  | none => r.fixtures

/-- The records a single result contributes to the history sequence. -/
def contribHistory (r : PlayerResult) : List Rec :=
  match r.error with
  | some _ => []
  | none => r.history

/-- The records a single result contributes to the history_past sequence. -/
def contribHistoryPast (r : PlayerResult) : List Rec :=
  match r.error with
  | some _ => []
  | none => r.history_past

/-- The errors entry a single result contributes: exactly one when it
carries an error, none otherwise. -/
def contribError (r : PlayerResult) : Option (Nat × String) :=
  r.error.map (fun e => (r.player_id, e))

/-- Characterization of the fold from an arbitrary starting batch. -/
theorem flatten_foldl (results : List PlayerResult) (b : Batch) :
    results.foldl flatten_step b =
      { fixtures := b.fixtures ++ (results.map contribFixtures).flatten
        history := b.history ++ (results.map contribHistory).flatten
        history_past := b.history_past ++ (results.map contribHistoryPast).flatten
        errors := b.errors ++ results.filterMap contribError } := by
  induction results generalizing b with
  | nil => simp
  | cons r rs ih =>
      rcases b with ⟨bf, bh, bhp, be⟩
      rcases r with ⟨pid, fx, hi, hp, err⟩
      cases err with
      | none =>
          simp [List.foldl_cons, ih, flatten_step, contribFixtures,
            contribHistory, contribHistoryPast, contribError]
      | some e =>
          simp [List.foldl_cons, ih, flatten_step, contribFixtures,
            contribHistory, contribHistoryPast, contribError]

/-- Python `{'element': player_id, **f}` from the legacy fetcher:
a dict starting with key `element` bound to the player id, then updated by
`f`'s items — a key already present keeps its (first) position but takes
`f`'s value, and `f`'s fresh keys follow in `f`'s order. -/
def pyDictUpdate (base upd : Rec) : Rec :=
  base.map (fun kv => (kv.1, (lookupKey upd kv.1).getD kv.2)) ++
    upd.filter (fun kv => (lookupKey base kv.1).isNone)

/-- `ElementSummaryFetcher.fetch_player` from the legacy copy
`src/fetch_data/element_summary.py` (lines 15-51).  It differs from the etl
copy in the success branch: fixtures and history_past records are merged as
`{'element': player_id, **f}`, while `history` is taken straight from
`raw_data.get("history", [])` with no tagging at all. -/
def fetch_player_fd (player_id : Nat) (o : NetOutcome) : PlayerResult :=
  match o with
  | NetOutcome.response status body =>
      if status = 200 then
        { player_id := player_id
          fixtures := body.fixtures.map
            (fun f => pyDictUpdate [("element", JVal.nat player_id)] f)
          history := body.history
          history_past := body.history_past.map
            (fun hp => pyDictUpdate [("element", JVal.nat player_id)] hp)
          error := none }
      else
        { player_id := player_id
          fixtures := []
          history := []
          history_past := []
          error := some ("HTTP " ++ toString status) }
  | NetOutcome.exn msg =>
      { player_id := player_id
        fixtures := []
        history := []
        history_past := []
        error := some msg }

/-- C1: in `flatten_results` each result carrying an error contributes
exactly one entry to `errors` and no records to the three data sequences,
each error-free result contributes all of its records to the matching data
sequences and nothing to `errors`, and the length of `errors` equals the
number of failed results.  Stated as: the four output sequences are exactly
the in-order concatenations of the per-result contributions (`contrib*`
sends a failed result to `[]`/one error entry and a successful one to its
full record lists/no entry). -/
theorem flatten_results_partition (results : List FFC.PlayerResult) :
    (FFC.flatten_results results).fixtures
        = (results.map FFC.contribFixtures).flatten ∧
    (FFC.flatten_results results).history
        = (results.map FFC.contribHistory).flatten ∧
    (FFC.flatten_results results).history_past
        = (results.map FFC.contribHistoryPast).flatten ∧
    (FFC.flatten_results results).errors
        = results.filterMap FFC.contribError ∧
    (FFC.flatten_results results).errors.length
        = (results.filter (fun r => r.error.isSome)).length := by
  have hlen : (results.filterMap FFC.contribError).length
      = (results.filter (fun r => r.error.isSome)).length := by
    induction results with
    | nil => simp
    | cons r rs ih =>
        cases hr : r.error with
        | none => simpa [FFC.contribError, hr] using ih
        | some e => simpa [FFC.contribError, hr] using ih
  have h := FFC.flatten_foldl results
    { fixtures := [], history := [], history_past := [], errors := [] }
  refine ⟨?_, ?_, ?_, ?_, ?_⟩
  · simp [FFC.flatten_results, h]
  · simp [FFC.flatten_results, h]
  · simp [FFC.flatten_results, h]
  · simp [FFC.flatten_results, h]
  · rw [FFC.flatten_results, h]
    simpa using hlen

/-- C2: `fetch_player` is total (it returns a `PlayerResult` for every
network outcome, never raising), the returned result always carries the
player id, a non-200 status yields the diagnostic `"HTTP <status>"` with all
three record lists empty, a raised transport exception yields its message
with all three record lists empty, and a 200 response yields a result with
no `error` field. -/
theorem fetch_player_no_raise_spec (pid : Nat) (o : FFC.NetOutcome) :
    (FFC.fetch_player pid o).player_id = pid ∧
    (∀ status body, o = FFC.NetOutcome.response status body → status ≠ 200 →
        FFC.fetch_player pid o =
          { player_id := pid, fixtures := [], history := [], history_past := []
            error := some ("HTTP " ++ toString status) }) ∧
    (∀ msg, o = FFC.NetOutcome.exn msg →
        FFC.fetch_player pid o =
          { player_id := pid, fixtures := [], history := [], history_past := []
            error := some msg }) ∧
    ((FFC.fetch_player pid o).error = none ↔
        ∃ body, o = FFC.NetOutcome.response 200 body) := by
  refine ⟨?_, ?_, ?_, ?_⟩
  · cases o with
    | response status body => by_cases h : status = 200 <;> simp [FFC.fetch_player, h]
    | exn msg => simp [FFC.fetch_player]
  · rintro status body rfl hne
    simp [FFC.fetch_player, hne]
  · rintro msg rfl
    simp [FFC.fetch_player]
  · cases o with
    | response status body =>
        by_cases h : status = 200
        · subst h
          simp [FFC.fetch_player]
        · simp [FFC.fetch_player, h]
    | exn msg => simp [FFC.fetch_player]

/-- Witness for C2 at concrete inputs: player 3 with a raised exception, a
504 response, and a 200 response with one history record. -/
theorem fetch_player_no_raise_spec_witness :
    FFC.fetch_player 3 (FFC.NetOutcome.exn "boom") =
      { player_id := 3, fixtures := [], history := [], history_past := []
        error := some "boom" } ∧
    FFC.fetch_player 3 (FFC.NetOutcome.response 504 ⟨[], [], []⟩) =
      { player_id := 3, fixtures := [], history := [], history_past := []
        error := some "HTTP 504" } ∧
    (FFC.fetch_player 3
        (FFC.NetOutcome.response 200 ⟨[], [[("gw", FFC.JVal.nat 1)]], []⟩)).error
      = none := by
  refine ⟨?_, ?_, ?_⟩
  · exact (fetch_player_no_raise_spec 3 (FFC.NetOutcome.exn "boom")).2.2.1 "boom" rfl
  · exact (fetch_player_no_raise_spec 3
      (FFC.NetOutcome.response 504 ⟨[], [], []⟩)).2.1 504 ⟨[], [], []⟩ rfl (by decide)
  · exact (fetch_player_no_raise_spec 3
      (FFC.NetOutcome.response 200 ⟨[], [[("gw", FFC.JVal.nat 1)]], []⟩)).2.2.2.mpr
      ⟨⟨[], [[("gw", FFC.JVal.nat 1)]], []⟩, rfl⟩

/-- C6 counterexample: the claim asserts every record of all three
sub-collections is tagged with an `element` field.  In the legacy
`src/fetch_data/element_summary.py` copy, a 200 response for player 5 whose
`history` is the single record `{"gw": 1}` is passed through unchanged, and
that emitted record has no `element` field at all. -/
theorem fd_history_untagged_counterexample :
    (FFC.fetch_player_fd 5
        (FFC.NetOutcome.response 200 ⟨[], [[("gw", FFC.JVal.nat 1)]], []⟩)).history
      = [[("gw", FFC.JVal.nat 1)]] ∧
    FFC.lookupKey [("gw", FFC.JVal.nat 1)] "element" = none := by
  exact ⟨rfl, rfl⟩

/-- C6 (amended): in the etl fetcher (`src/etl/fetch/element_summary.py`)
every record of all three sub-collections of a successful response carries
an `element` field equal to the player id (the original record is wrapped
under `data`); the legacy `src/fetch_data` copy tags only `fixtures` and
`history_past`, while `history` records are emitted exactly as received,
untagged. -/
theorem element_tagging_spec (pid : Nat) (body : FFC.ESBody) :
    (∀ r ∈ (FFC.fetch_player pid (FFC.NetOutcome.response 200 body)).fixtures,
        FFC.lookupKey r "element" = some (FFC.JVal.nat pid)) ∧
    (∀ r ∈ (FFC.fetch_player pid (FFC.NetOutcome.response 200 body)).history,
        FFC.lookupKey r "element" = some (FFC.JVal.nat pid)) ∧
    (∀ r ∈ (FFC.fetch_player pid (FFC.NetOutcome.response 200 body)).history_past,
        FFC.lookupKey r "element" = some (FFC.JVal.nat pid)) ∧
    (FFC.fetch_player_fd pid (FFC.NetOutcome.response 200 body)).history
      = body.history := by
  refine ⟨?_, ?_, ?_, ?_⟩
  · intro r hr
    simp only [FFC.fetch_player, if_pos (rfl : (200 : Nat) = 200)] at hr
    rcases List.mem_map.mp hr with ⟨f, -, rfl⟩
    simp [FFC.lookupKey]
  · intro r hr
    simp only [FFC.fetch_player, if_pos (rfl : (200 : Nat) = 200)] at hr
    rcases List.mem_map.mp hr with ⟨f, -, rfl⟩
    simp [FFC.lookupKey]
  · intro r hr
    simp only [FFC.fetch_player, if_pos (rfl : (200 : Nat) = 200)] at hr
    rcases List.mem_map.mp hr with ⟨f, -, rfl⟩
    simp [FFC.lookupKey]
  · simp [FFC.fetch_player_fd]

/-- Witness for C6's amended theorem at a concrete success body: the single
tagged fixtures record of player 5 carries `element = 5`, and the legacy
copy's history passes through as-is. -/
theorem element_tagging_spec_witness :
    FFC.lookupKey
        [("element", FFC.JVal.nat 5), ("data", FFC.JVal.obj [("a", FFC.JVal.nat 0)])]
        "element" = some (FFC.JVal.nat 5) ∧
    (FFC.fetch_player_fd 5
        (FFC.NetOutcome.response 200 ⟨[[("a", FFC.JVal.nat 0)]], [[("gw", FFC.JVal.nat 2)]], []⟩)).history
      = [[("gw", FFC.JVal.nat 2)]] := by
  constructor
  · exact (element_tagging_spec 5
      ⟨[[("a", FFC.JVal.nat 0)]], [[("gw", FFC.JVal.nat 2)]], []⟩).1
      [("element", FFC.JVal.nat 5), ("data", FFC.JVal.obj [("a", FFC.JVal.nat 0)])]
      (by simp [FFC.fetch_player])
  · exact (element_tagging_spec 5
      ⟨[[("a", FFC.JVal.nat 0)]], [[("gw", FFC.JVal.nat 2)]], []⟩).2.2.2

/-- C9: `fetch_all_players` yields the per-player results in the order of
the input id list (`asyncio.gather` returns task results in argument order),
so the merged batch's data sequences are the concatenations of the
per-player record groups in input-id order, and its errors sequence follows
input-id order as well — never network completion order. -/
theorem fan_out_input_order_spec (outcomes : Nat → FFC.NetOutcome)
    (player_ids : List Nat) :
    FFC.fetch_all_players outcomes player_ids
      = player_ids.map (fun pid => FFC.fetch_player pid (outcomes pid)) ∧
    (FFC.flatten_results (FFC.fetch_all_players outcomes player_ids)).fixtures
      = (player_ids.map
          (fun pid => FFC.contribFixtures (FFC.fetch_player pid (outcomes pid)))).flatten ∧
    (FFC.flatten_results (FFC.fetch_all_players outcomes player_ids)).history
      = (player_ids.map
          (fun pid => FFC.contribHistory (FFC.fetch_player pid (outcomes pid)))).flatten ∧
    (FFC.flatten_results (FFC.fetch_all_players outcomes player_ids)).history_past
      = (player_ids.map
          (fun pid => FFC.contribHistoryPast (FFC.fetch_player pid (outcomes pid)))).flatten ∧
    (FFC.flatten_results (FFC.fetch_all_players outcomes player_ids)).errors
      = player_ids.filterMap
          (fun pid => FFC.contribError (FFC.fetch_player pid (outcomes pid))) := by
  have h := FFC.flatten_foldl (FFC.fetch_all_players outcomes player_ids)
    { fixtures := [], history := [], history_past := [], errors := [] }
  refine ⟨rfl, ?_, ?_, ?_, ?_⟩
  · rw [FFC.flatten_results, h]
    simp [FFC.fetch_all_players, List.map_map, Function.comp_def]
  · rw [FFC.flatten_results, h]
    simp [FFC.fetch_all_players, List.map_map, Function.comp_def]
  · rw [FFC.flatten_results, h]
    simp [FFC.fetch_all_players, List.map_map, Function.comp_def]
  · rw [FFC.flatten_results, h]
    simp [FFC.fetch_all_players, List.filterMap_map, Function.comp_def]

/-- A snapshot player record as far as the roster resolver reads it:
the `id` and `team` integer fields. -/
structure Element where
  id : Nat
  team : Nat
deriving DecidableEq

/-- `get_elements_from_team` from `src/etl/process/bootstrap_static.py`
(lines 5-32): filter the snapshot's elements by team id keeping snapshot
order, then raise `ValueError` when the filtered list is empty
(`Except.error` models the raise). -/
def get_elements_from_team_etl (team_id : Nat) (elements : List FFC.Element) :
    Except String (List Nat) :=
  let team_elements := (elements.filter (fun e => e.team = team_id)).map (fun e => e.id)
  if team_elements.isEmpty then
    Except.error ("No elements found for team_id: " ++ toString team_id)
  else
    Except.ok team_elements

/-- `get_elements_from_team` from the legacy copy
`src/process/bootstrap_static.py` (lines 4-23): the same filter, but the
(possibly empty) list is returned unconditionally — the function has no
raising branch at all. -/
def get_elements_from_team_legacy (team_id : Nat) (elements : List FFC.Element) :
    List Nat :=
  (elements.filter (fun e => e.team = team_id)).map (fun e => e.id)

/-- Spec-side roster: the identifiers of exactly the players whose team
field equals the requested team id, in snapshot order. -/
def rosterIds (team_id : Nat) (elements : List FFC.Element) : List Nat :=
  elements.filterMap (fun e => if e.team = team_id then some e.id else none)

/-- The filter-then-project implementation equals the spec-side roster. -/
theorem filter_map_eq_rosterIds (team_id : Nat) (elements : List FFC.Element) :
    (elements.filter (fun e => e.team = team_id)).map (fun e => e.id)
      = FFC.rosterIds team_id elements := by
  induction elements with
  | nil => rfl
  | cons e es ih =>
      by_cases h : e.team = team_id <;>
        simp [FFC.rosterIds, List.filter_cons, h, ih]

/-- C4 counterexample: for team 3 against a snapshot whose only player is on
team 1, the legacy resolver returns the empty list as a normal value — no
not-found error is raised (its result type has no error channel) — while the
claim demands a not-found failure exactly when the sequence is empty (the
etl copy does fail there). -/
theorem legacy_roster_no_raise_counterexample :
    FFC.get_elements_from_team_legacy 3 [⟨1, 1⟩] = [] ∧
    FFC.get_elements_from_team_etl 3 [⟨1, 1⟩]
      = Except.error "No elements found for team_id: 3" := by
  exact ⟨rfl, rfl⟩

/-- C4 (amended): both resolver copies return exactly the identifiers of
the players whose team field equals the given team id, in snapshot order;
the etl copy raises the not-found error iff that sequence is empty, while
the legacy `src/process` copy never raises and returns the (possibly empty)
sequence unconditionally. -/
theorem roster_resolver_spec (team_id : Nat) (elements : List FFC.Element) :
    FFC.get_elements_from_team_etl team_id elements
      = (if (FFC.rosterIds team_id elements).isEmpty then
          Except.error ("No elements found for team_id: " ++ toString team_id)
        else Except.ok (FFC.rosterIds team_id elements)) ∧
    FFC.get_elements_from_team_legacy team_id elements
      = FFC.rosterIds team_id elements := by
  constructor
  · rw [FFC.get_elements_from_team_etl]
    rw [FFC.filter_map_eq_rosterIds]
  · rw [FFC.get_elements_from_team_legacy, FFC.filter_map_eq_rosterIds]

/-! Decimal rendering of nonnegative integers, the image of Python
`str(team_id)` inside the f-string that builds a blob name. -/

/-- The ASCII character of a decimal digit. -/
def digitChar (d : Nat) : Char := Char.ofNat (48 + d)

/-- Fuel-driven base-10 rendering: most significant digit first. -/
def natCharsAux : Nat → Nat → List Char
  | 0, _ => []
  | fuel + 1, n =>
      if n < 10 then [digitChar n]
      else natCharsAux fuel (n / 10) ++ [digitChar (n % 10)]

/-- Base-10 rendering of a natural number, e.g. `natChars 21 = ['2', '1']`. -/
def natChars (n : Nat) : List Char := natCharsAux (n + 1) n

/-- Python `str(n)` for a nonnegative integer. -/
def natStr (n : Nat) : String := String.mk (FFC.natChars n)

/-- Value of a base-10 digit string, most significant digit first. -/
def valChars (l : List Char) : Nat :=
  l.foldl (fun a c => 10 * a + (c.toNat - 48)) 0

theorem digitChar_toNat (d : Nat) (h : d < 10) : (FFC.digitChar d).toNat = 48 + d := by
  interval_cases d <;> decide

theorem digitChar_isDigit (d : Nat) (h : d < 10) : (FFC.digitChar d).isDigit = true := by
  interval_cases d <;> decide

theorem valChars_append_digit (l : List Char) (c : Char) :
    FFC.valChars (l ++ [c]) = 10 * FFC.valChars l + (c.toNat - 48) := by
  simp [FFC.valChars, List.foldl_append]

theorem natCharsAux_val :
    ∀ fuel n : Nat, n < fuel → FFC.valChars (FFC.natCharsAux fuel n) = n := by
  intro fuel
  induction fuel with
  | zero => intro n h; omega
  | succ f ih =>
      intro n h
      rw [FFC.natCharsAux]
      by_cases h10 : n < 10
      · rw [if_pos h10]
        have hd := FFC.digitChar_toNat n h10
        simp [FFC.valChars, hd]
      · rw [if_neg h10]
        have hdiv : n / 10 < f := by
          have := Nat.div_lt_self (show 0 < n by omega) (show 1 < 10 by omega)
          omega
        rw [FFC.valChars_append_digit, ih (n / 10) hdiv,
          FFC.digitChar_toNat (n % 10) (Nat.mod_lt n (by omega))]
        omega

theorem valChars_natChars (n : Nat) : FFC.valChars (FFC.natChars n) = n :=
  FFC.natCharsAux_val (n + 1) n (Nat.lt_succ_self n)

theorem natCharsAux_digits :
    ∀ fuel n : Nat, ∀ c ∈ FFC.natCharsAux fuel n, c.isDigit = true := by
  intro fuel
  induction fuel with
  | zero => intro n c hc; simp [FFC.natCharsAux] at hc
  | succ f ih =>
      intro n c hc
      rw [FFC.natCharsAux] at hc
      by_cases h10 : n < 10
      · rw [if_pos h10] at hc
        simp at hc
        subst hc
        exact FFC.digitChar_isDigit n h10
      · rw [if_neg h10] at hc
        rcases List.mem_append.mp hc with h | h
        · exact ih (n / 10) c h
        · simp at h
          subst h
          exact FFC.digitChar_isDigit (n % 10) (Nat.mod_lt n (by omega))

theorem natChars_digits (n : Nat) : ∀ c ∈ FFC.natChars n, c.isDigit = true :=
  FFC.natCharsAux_digits (n + 1) n

/-- `takeWhile` consumes leading characters satisfying the predicate and
stops at the first character that does not. -/
theorem takeWhile_append_stop (p : Char → Bool) (l1 : List Char) (x : Char)
    (l2 : List Char) (h1 : ∀ c ∈ l1, p c = true) (h2 : p x = false) :
    (l1 ++ x :: l2).takeWhile p = l1 := by
  induction l1 with
  | nil => simp [List.takeWhile_cons, h2]
  | cons a as ih =>
      have ha : p a = true := h1 a (List.mem_cons_self a as)
      simp [List.takeWhile_cons, ha,
        ih (fun c hc => h1 c (List.mem_cons_of_mem a hc))]

/-- Appending strings appends their character data. -/
theorem string_data_append (s t : String) : (s ++ t).data = s.data ++ t.data := by
  cases s with
  | mk a =>
      cases t with
      | mk b => rfl

/-- The GCS object path built in `fetch_and_upload_team_summary`
(`src/process/element_summary.py`, lines 103-104):
`f"{destination_folder}/element_summary_{table_name}_{team_id}.json"`. -/
def blobName (destination_folder table_name : String) (team_id : Nat) : String :=
  destination_folder ++ "/element_summary_" ++ table_name ++ "_" ++
    FFC.natStr team_id ++ ".json"

/-- Recover the team id from a blob name: strip the 5-character `.json`
suffix and read the trailing run of decimal digits. -/
def teamOfBlobName (s : String) : Nat :=
  FFC.valChars (((s.data.reverse.drop 5).takeWhile Char.isDigit).reverse)

theorem blobName_data (destination_folder table_name : String) (team_id : Nat) :
    (FFC.blobName destination_folder table_name team_id).data
      = destination_folder.data ++ ("/element_summary_" : String).data ++
          table_name.data ++ ['_'] ++ FFC.natChars team_id ++
          (".json" : String).data := by
  simp [FFC.blobName, FFC.string_data_append, FFC.natStr]

/-- The trailing digit run of a blob name decodes to the team id that was
rendered into it, whatever the folder and table name are (the `_` separator
just before the digits stops the scan). -/
theorem teamOfBlobName_blobName (destination_folder table_name : String)
    (team_id : Nat) :
    FFC.teamOfBlobName (FFC.blobName destination_folder table_name team_id)
      = team_id := by
  rw [FFC.teamOfBlobName, FFC.blobName_data]
  have hrev : (destination_folder.data ++ ("/element_summary_" : String).data ++
      table_name.data ++ ['_'] ++ FFC.natChars team_id ++
      (".json" : String).data).reverse
      = 'n' :: 'o' :: 's' :: 'j' :: '.' ::
        ((FFC.natChars team_id).reverse ++ '_' ::
          (table_name.data.reverse ++
            (("/element_summary_" : String).data.reverse ++
              destination_folder.data.reverse))) := by
    simp [List.reverse_append]
  rw [hrev]
  have hdrop : List.drop 5 ('n' :: 'o' :: 's' :: 'j' :: '.' ::
      ((FFC.natChars team_id).reverse ++ '_' ::
        (table_name.data.reverse ++
          (("/element_summary_" : String).data.reverse ++
            destination_folder.data.reverse))))
      = (FFC.natChars team_id).reverse ++ '_' ::
          (table_name.data.reverse ++
            (("/element_summary_" : String).data.reverse ++
              destination_folder.data.reverse)) := rfl
  rw [hdrop]
  rw [FFC.takeWhile_append_stop Char.isDigit _ '_' _
    (fun c hc => FFC.natChars_digits team_id c (List.mem_reverse.mp hc))
    (by decide)]
  rw [List.reverse_reverse]
  exact FFC.valChars_natChars team_id

/-- The association list bound to a table name in the batch dictionary. -/
abbrev TableAssoc := List (String × List FFC.Rec)

/-- The dictionary entry appended to `errors` by `flatten_results`:
`{"player_id": ..., "error": ...}`. -/
def errRec (e : Nat × String) : FFC.Rec :=
  [("player_id", FFC.JVal.nat e.1), ("error", FFC.JVal.str e.2)]

/-- The dictionary returned by `flatten_results` as seen by
`data.items()` in `fetch_and_upload_team_summary`: four entries in
insertion order — `fixtures`, `history`, `history_past`, `errors`. -/
def batchDict (b : FFC.Batch) : FFC.TableAssoc :=
  [("fixtures", b.fixtures), ("history", b.history),
    ("history_past", b.history_past), ("errors", b.errors.map FFC.errRec)]

/-- Observable effects of one `fetch_and_upload_team_summary` call: whether
the no-data warning fired, and the `(blob_name, records)` pairs handed to
`upload_json_to_gcs`, in order. -/
structure TeamUploadOut where
  warned : Bool
  uploads : List (String × List FFC.Rec)

/-- `fetch_and_upload_team_summary` from `src/process/element_summary.py`
(lines 72-122), applied to the batch dictionary it obtained: `if not data:`
is Python dict truthiness, i.e. the branch fires only when the dictionary
has no entries at all; otherwise every entry whose list is truthy
(non-empty) is uploaded under its blob name, in `data.items()` order. -/
def fetch_and_upload_team_summary (team_id : Nat) (destination_folder : String)
    (data : FFC.TableAssoc) : FFC.TeamUploadOut :=
  if data.isEmpty then
    { warned := true, uploads := [] }
  else
    { warned := false
      uploads := data.filterMap (fun kv =>
        if kv.2.isEmpty then none
        else some (FFC.blobName destination_folder kv.1 team_id, kv.2)) }

/-- The full per-team job of `src/process/element_summary.py`: aggregate the
per-player results (`get_element_summary_for_teams` ends in
`ElementSummaryFetcher.run`) and hand the resulting dictionary to the upload
loop. -/
def teamJob (team_id : Nat) (destination_folder : String)
    (outcomes : Nat → FFC.NetOutcome) (player_ids : List Nat) : FFC.TeamUploadOut :=
  FFC.fetch_and_upload_team_summary team_id destination_folder
    (FFC.batchDict (FFC.flatten_results (FFC.fetch_all_players outcomes player_ids)))

/-- A batch with a single failed player and no data records. -/
def batchOneError : FFC.Batch :=
  { fixtures := [], history := [], history_past := [], errors := [(2, "HTTP 500")] }

/-- C3 counterexample: the claim asserts the errors sequence is never
written to the storage sink.  For team 1 and a batch whose only non-empty
sequence is `errors`, the upload loop iterates over all four dictionary
entries and emits exactly one artifact — the errors table — at
`element_summary/element_summary_errors_1.json`. -/
theorem errors_written_to_sink_counterexample :
    (FFC.fetch_and_upload_team_summary 1 "element_summary"
        (FFC.batchDict FFC.batchOneError)).uploads
      = [("element_summary/element_summary_errors_1.json",
          [[("player_id", FFC.JVal.nat 2), ("error", FFC.JVal.str "HTTP 500")]])] := by
  rfl

/-- C3 (amended): for every aggregated batch handed to the per-team upload
step, an artifact is emitted for each of the FOUR sequences (fixtures,
history, history_past, and also errors) that is non-empty — the errors
sequence is written to the sink like the others — each under the object
path `<folder>/element_summary_<kind>_<team_id>.json` (`blobName`), in
dictionary order, and the no-data warning never fires on such a batch. -/
theorem team_upload_emits_all_nonempty_tables (team_id : Nat)
    (destination_folder : String) (b : FFC.Batch) :
    (FFC.fetch_and_upload_team_summary team_id destination_folder
        (FFC.batchDict b)).warned = false ∧
    (FFC.fetch_and_upload_team_summary team_id destination_folder
        (FFC.batchDict b)).uploads
      = ((FFC.batchDict b).filter (fun kv => !kv.2.isEmpty)).map
          (fun kv => (FFC.blobName destination_folder kv.1 team_id, kv.2)) := by
  have hmain : ∀ data : FFC.TableAssoc,
      data.filterMap (fun kv =>
        if kv.2.isEmpty then none
        else some (FFC.blobName destination_folder kv.1 team_id, kv.2))
      = (data.filter (fun kv => !kv.2.isEmpty)).map
          (fun kv => (FFC.blobName destination_folder kv.1 team_id, kv.2)) := by
    intro data
    induction data with
    | nil => rfl
    | cons kv rest ih =>
        by_cases h : kv.2.isEmpty <;>
          simp [List.filterMap_cons, List.filter_cons, h, ih]
  constructor
  · rfl
  · rw [show FFC.fetch_and_upload_team_summary team_id destination_folder
        (FFC.batchDict b)
        = { warned := false
            uploads := (FFC.batchDict b).filterMap (fun kv =>
              if kv.2.isEmpty then none
              else some (FFC.blobName destination_folder kv.1 team_id, kv.2)) }
      from rfl]
    exact hmain (FFC.batchDict b)

/-- C7: for a team job whose aggregated batch has all four sequences empty
(here: an empty roster), the code writes nothing to the sink but also emits
NO warning — `if not data:` tests the truthiness of the batch dictionary,
which always carries its four keys, so the warning branch is dead and the
job skips silently, against the documented warn-and-skip behaviour. -/
theorem empty_batch_silent_skip_code_bug :
    FFC.flatten_results (FFC.fetch_all_players (fun _ => FFC.NetOutcome.exn "e") [])
      = { fixtures := [], history := [], history_past := [], errors := [] } ∧
    FFC.teamJob 1 "element_summary" (fun _ => FFC.NetOutcome.exn "e") []
      = { warned := false, uploads := [] } := by
  exact ⟨rfl, rfl⟩

/-- Every path emitted by the upload loop for team `t` decodes back to `t`. -/
theorem teamOf_mem_upload (team_id : Nat) (destination_folder : String)
    (data : FFC.TableAssoc) (p : String)
    (hp : p ∈ (FFC.fetch_and_upload_team_summary team_id destination_folder
        data).uploads.map Prod.fst) :
    FFC.teamOfBlobName p = team_id := by
  rw [FFC.fetch_and_upload_team_summary] at hp
  by_cases hd : data.isEmpty
  · rw [if_pos hd] at hp
    exact absurd hp (List.not_mem_nil p)
  · rw [if_neg hd] at hp
    simp only [List.map_filterMap] at hp
    rcases List.mem_filterMap.mp hp with ⟨kv, -, hkv⟩
    by_cases he : kv.2.isEmpty
    · rw [if_pos he] at hkv
      exact Option.noConfusion hkv
    · rw [if_neg he] at hkv
      have hp2 : FFC.blobName destination_folder kv.1 team_id = p :=
        Option.some.inj hkv
      rw [← hp2]
      exact FFC.teamOfBlobName_blobName destination_folder kv.1 team_id

/-- C10: two team jobs for distinct team ids (same destination folder, any
two aggregated batches) write disjoint sets of storage-sink object paths:
every written blob name embeds its own team id as the digit run before the
`.json` suffix, so no path of one job can appear among the other's. -/
theorem team_upload_paths_disjoint (destination_folder : String)
    (t1 t2 : Nat) (b1 b2 : FFC.Batch) (hne : t1 ≠ t2) (p : String)
    (h1 : p ∈ (FFC.fetch_and_upload_team_summary t1 destination_folder
        (FFC.batchDict b1)).uploads.map Prod.fst) :
    p ∉ (FFC.fetch_and_upload_team_summary t2 destination_folder
        (FFC.batchDict b2)).uploads.map Prod.fst := by
  intro h2
  have e1 := FFC.teamOf_mem_upload t1 destination_folder (FFC.batchDict b1) p h1
  have e2 := FFC.teamOf_mem_upload t2 destination_folder (FFC.batchDict b2) p h2
  exact hne (e1 ▸ e2 ▸ rfl)

/-- A batch with a single fixtures record, used to witness C10. -/
def batchOneFixture : FFC.Batch :=
  { fixtures := [[("a", FFC.JVal.nat 0)]], history := [], history_past := []
    errors := [] }

/-- Witness for C10 at concrete inputs: team 1's fixtures artifact path is
not among the paths team 2 writes for a batch with the same shape. -/
theorem team_upload_paths_disjoint_witness :
    "element_summary/element_summary_fixtures_1.json"
      ∉ (FFC.fetch_and_upload_team_summary 2 "element_summary"
          (FFC.batchDict FFC.batchOneFixture)).uploads.map Prod.fst := by
  exact FFC.team_upload_paths_disjoint "element_summary" 1 2
    FFC.batchOneFixture FFC.batchOneFixture (by decide)
    "element_summary/element_summary_fixtures_1.json"
    (by exact List.mem_singleton.mpr rfl)

/-- `ElementSummaryRequest.validate_max_workers` from `src/models.py`
(lines 21-27): raise for `v < 1`, raise for `v > 20` (with a stale `100` in
the message text), otherwise return `v`.  `Except.error` models the raised
`ValueError`, which pydantic surfaces as a validation error. -/
def validate_max_workers (v : Int) : Except String Int :=
  if v < 1 then Except.error "max_workers must be at least 1"
  else if v > 20 then Except.error "max_workers cannot exceed 100"
  else Except.ok v

/-- `ElementSummaryRequest.validate_destination_folder` from `src/models.py`
(lines 15-19): reject a falsy (empty) string.  The `isinstance` check cannot
fail in the embedding, where the field is a string by type. -/
def validate_destination_folder (v : String) : Except String String :=
  if v.isEmpty then Except.error "destination_folder must be a non-empty string"
  else Except.ok v

/-- The request body of the element-summary endpoint after JSON parsing and
defaulting (`destination_folder` defaults to `"element_summary"`,
`max_workers` to 5). -/
structure ESRequestBody where
  destination_folder : String
  team_ids : Option (List Int)
  element_ids : Option (List Int)
  max_workers : Int

/-- The arguments with which `fetch_and_upload_element_summary` — the call
that starts network activity — is invoked. -/
structure JobParams where
  destination_folder : String
  team_ids : Option (List Int)
  element_ids : Option (List Int)
  max_workers : Int

/-- What an endpoint call does with a request: reject it with a validation
message (HTTP 400, no processing started), or run the pipeline job. -/
inductive EndpointOutcome where
  | rejected (msg : String)
  | ran (job : FFC.JobParams)

/-- The `/fetch-and-upload-element-summary` handler of `src/app.py`
(lines 49-73): construct `ElementSummaryRequest` — running the two field
validators — and only then call `fetch_and_upload_element_summary`; a
`ValueError` from validation is answered with a 400 before any network
activity. -/
def app_endpoint (b : FFC.ESRequestBody) : FFC.EndpointOutcome :=
  match FFC.validate_destination_folder b.destination_folder with
  | Except.error m => FFC.EndpointOutcome.rejected m
  | Except.ok f =>
      match FFC.validate_max_workers b.max_workers with
      | Except.error m => FFC.EndpointOutcome.rejected m
      | Except.ok w =>
          FFC.EndpointOutcome.ran ⟨f, b.team_ids, b.element_ids, w⟩

/-- Whitespace stripped from both ends, as Python `int(str)` does before
reading the literal. -/
def trimWS (l : List Char) : List Char :=
  ((l.dropWhile Char.isWhitespace).reverse.dropWhile Char.isWhitespace).reverse

/-- A nonempty run of ASCII decimal digits, read as a number; anything else
is a failed literal. -/
def pyIntDigits (l : List Char) : Option Nat :=
  if l.isEmpty then none
  else if l.all Char.isDigit then some (FFC.valChars l) else none

/-- Python `int(token)` on one comma-separated token: optional surrounding
whitespace, an optional sign, then a nonempty digit run; any other shape
raises `ValueError` (modelled as `none`). -/
def pyInt (tok : List Char) : Option Int :=
  match FFC.trimWS tok with
  | '-' :: rest => (FFC.pyIntDigits rest).map (fun n => -(n : Int))
  | '+' :: rest => (FFC.pyIntDigits rest).map (fun n => (n : Int))
  | t => (FFC.pyIntDigits t).map (fun n => (n : Int))

/-- Python `str.split(',')`: the (possibly empty) pieces between commas;
`n` commas always yield `n + 1` pieces, and the empty string yields one
empty piece. -/
def splitCommaAux : List Char → List Char → List (List Char)
  | [], acc => [acc.reverse]
  | c :: rest, acc =>
      if c = ',' then acc.reverse :: FFC.splitCommaAux rest []
      else FFC.splitCommaAux rest (c :: acc)

/-- Split a string at every comma, keeping empty pieces. -/
def splitComma (l : List Char) : List (List Char) := FFC.splitCommaAux l []

/-- `list_of_ints` from `src/etl/utils/string_manipulation.py`
(`list(map(int, arg.split(',')))`), as applied by the routes handler to the
raw `data.get(...)` value: an absent field (`None`) has no `.split` and
raises `AttributeError`; a string is split on commas and each token parsed
by `int`, raising `ValueError` on a bad token.  Both raises are modelled as
`Except.error` (message text abridged) — in the handler they fall through to
the `except Exception` branch and become a 500 response. -/
def list_of_ints (arg : Option String) : Except String (List Int) :=
  match arg with
  | none => Except.error "AttributeError: None has no attribute split"
  | some s =>
      match (FFC.splitComma s.data).mapM FFC.pyInt with
      | none => Except.error "ValueError: invalid literal for int"
      | some xs => Except.ok xs

/-- The JSON fields of a request to the `src/app/routes.py` handler, as that
handler reads them: `destination_folder` and `max_workers` via `data.get`
with their defaults applied, and the two id fields as the raw optional
comma-separated strings handed to `list_of_ints`. -/
structure RoutesRequestBody where
  destination_folder : String
  team_ids : Option String
  element_ids : Option String
  max_workers : Int

/-- What the routes handler does with a request: answer 500 from its
`except Exception` branch without the pipeline ever being invoked, or run
the pipeline job. -/
inductive RoutesOutcome where
  | serverError (msg : String)
  | ran (job : FFC.JobParams)

/-- The `/fetch-and-upload-element-summary` handler of `src/app/routes.py`
(lines 26-61), under the precondition that the three environment variables
are configured (their absence is a 500 before the request is even read).
It parses `team_ids` then `element_ids` with `list_of_ints` — a raised
`AttributeError`/`ValueError` there is answered with a 500 before
`fetch_and_upload_element_summary` is called — and otherwise calls the
pipeline with `max_workers` passed straight through: no
`ElementSummaryRequest` is constructed and no validation runs. -/
def routes_endpoint (b : FFC.RoutesRequestBody) : FFC.RoutesOutcome :=
  match FFC.list_of_ints b.team_ids with
  | Except.error m => FFC.RoutesOutcome.serverError m
  | Except.ok tids =>
      match FFC.list_of_ints b.element_ids with
      | Except.error m => FFC.RoutesOutcome.serverError m
      | Except.ok eids =>
          FFC.RoutesOutcome.ran
            ⟨b.destination_folder, some tids, some eids, b.max_workers⟩

/-- C8 counterexample: the claim asserts `max_workers = 21` supplied to the
top-level entry point is rejected as a validation error before any network
activity.  Through the `src/app/routes.py` handler, a request with both id
fields supplied as parseable comma-separated strings and `max_workers = 21`
launches the pipeline job with 21 workers — no rejection ever happens
there — even though the model validator (which that handler never invokes)
rejects 21. -/
theorem routes_no_validation_counterexample :
    FFC.routes_endpoint ⟨"element_summary", some "1,2", some "1,2,28,29", 21⟩
      = FFC.RoutesOutcome.ran
          ⟨"element_summary", some [1, 2], some [1, 2, 28, 29], 21⟩ ∧
    FFC.validate_max_workers 21 = Except.error "max_workers cannot exceed 100" := by
  exact ⟨rfl, rfl⟩

/-- C8 (amended): `validate_max_workers` accepts exactly the values in
[1, 20]; the `src/app.py` handler runs it before starting the pipeline, so
there a `max_workers` of 0 or 21 is rejected as a validation error before
any network activity.  The `src/app/routes.py` handler copy never validates
`max_workers`: with an absent `team_ids` field it fails with a server error
raised inside `list_of_ints` (before the pipeline, but no validation
either), and whenever both id fields parse it launches the job with the
supplied `max_workers` passed through unchecked. -/
theorem endpoint_validation_spec (b : FFC.ESRequestBody)
    (rb : FFC.RoutesRequestBody) :
    (∀ v : Int, FFC.validate_max_workers v = Except.ok v ↔ 1 ≤ v ∧ v ≤ 20) ∧
    (b.max_workers < 1 ∨ b.max_workers > 20 →
      ∃ m, FFC.app_endpoint b = FFC.EndpointOutcome.rejected m) ∧
    (∀ j, FFC.app_endpoint b = FFC.EndpointOutcome.ran j →
      1 ≤ j.max_workers ∧ j.max_workers ≤ 20 ∧ j.max_workers = b.max_workers) ∧
    (rb.team_ids = none →
      ∃ m, FFC.routes_endpoint rb = FFC.RoutesOutcome.serverError m) ∧
    (∀ t e, FFC.list_of_ints rb.team_ids = Except.ok t →
      FFC.list_of_ints rb.element_ids = Except.ok e →
      FFC.routes_endpoint rb = FFC.RoutesOutcome.ran
        ⟨rb.destination_folder, some t, some e, rb.max_workers⟩) := by
  have hval : ∀ v : Int, FFC.validate_max_workers v = Except.ok v ↔ 1 ≤ v ∧ v ≤ 20 := by
    intro v
    constructor
    · intro h
      by_cases h1 : v < 1
      · rw [FFC.validate_max_workers, if_pos h1] at h
        exact Except.noConfusion h
      · by_cases h2 : v > 20
        · rw [FFC.validate_max_workers, if_neg h1, if_pos h2] at h
          exact Except.noConfusion h
        · omega
    · intro h
      rw [FFC.validate_max_workers, if_neg (by omega), if_neg (by omega)]
  refine ⟨hval, ?_, ?_, ?_, ?_⟩
  · intro hout
    rw [FFC.app_endpoint]
    by_cases hf : b.destination_folder.isEmpty
    · rw [FFC.validate_destination_folder, if_pos hf]
      exact ⟨"destination_folder must be a non-empty string", rfl⟩
    · rw [FFC.validate_destination_folder, if_neg hf]
      by_cases h1 : b.max_workers < 1
      · rw [FFC.validate_max_workers, if_pos h1]
        exact ⟨"max_workers must be at least 1", rfl⟩
      · rw [FFC.validate_max_workers, if_neg h1, if_pos (by omega)]
        exact ⟨"max_workers cannot exceed 100", rfl⟩
  · intro j hj
    rw [FFC.app_endpoint] at hj
    by_cases hf : b.destination_folder.isEmpty
    · rw [FFC.validate_destination_folder, if_pos hf] at hj
      exact FFC.EndpointOutcome.noConfusion hj
    · rw [FFC.validate_destination_folder, if_neg hf] at hj
      by_cases h1 : b.max_workers < 1
      · rw [FFC.validate_max_workers, if_pos h1] at hj
        exact FFC.EndpointOutcome.noConfusion hj
      · by_cases h2 : b.max_workers > 20
        · rw [FFC.validate_max_workers, if_neg h1, if_pos h2] at hj
          exact FFC.EndpointOutcome.noConfusion hj
        · rw [FFC.validate_max_workers, if_neg h1, if_neg h2] at hj
          have hj2 := FFC.EndpointOutcome.ran.inj hj
          have hw : j.max_workers = b.max_workers := by rw [← hj2]
          exact ⟨by omega, by omega, hw⟩
  · intro h
    refine ⟨"AttributeError: None has no attribute split", ?_⟩
    rw [FFC.routes_endpoint, h]
    rfl
  · intro t e ht he
    rw [FFC.routes_endpoint, ht, he]

/-- Witness for C8's amended theorem: the `src/app.py` handler rejects both
`max_workers = 0` and `max_workers = 21` (on otherwise-default requests);
the routes handler launches the job with `max_workers = 21` when both id
fields parse, and answers a server error when `team_ids` is absent. -/
theorem endpoint_validation_spec_witness :
    (∃ m, FFC.app_endpoint ⟨"element_summary", none, none, 0⟩
        = FFC.EndpointOutcome.rejected m) ∧
    (∃ m, FFC.app_endpoint ⟨"element_summary", none, none, 21⟩
        = FFC.EndpointOutcome.rejected m) ∧
    FFC.routes_endpoint ⟨"element_summary", some "1,2", some "1", 21⟩
      = FFC.RoutesOutcome.ran ⟨"element_summary", some [1, 2], some [1], 21⟩ ∧
    (∃ m, FFC.routes_endpoint ⟨"element_summary", none, none, 5⟩
        = FFC.RoutesOutcome.serverError m) := by
  refine ⟨?_, ?_, ?_, ?_⟩
  · exact (FFC.endpoint_validation_spec ⟨"element_summary", none, none, 0⟩
      ⟨"element_summary", none, none, 5⟩).2.1 (Or.inl (by decide))
  · exact (FFC.endpoint_validation_spec ⟨"element_summary", none, none, 21⟩
      ⟨"element_summary", none, none, 5⟩).2.1 (Or.inr (by decide))
  · exact (FFC.endpoint_validation_spec ⟨"element_summary", none, none, 5⟩
      ⟨"element_summary", some "1,2", some "1", 21⟩).2.2.2.2
      [1, 2] [1] rfl rfl
  · exact (FFC.endpoint_validation_spec ⟨"element_summary", none, none, 5⟩
      ⟨"element_summary", none, none, 5⟩).2.2.2.1 rfl

end FFC
